import Mathlib

/-!
Verification of the k6 MCP server (`mcp-server/dist/index.js`).

The server exposes three tools behind one dispatcher:
  - `generate_k6_script`: calls an external completion service, strips
    markdown code fences from the reply;
  - `run_k6_test`: ensures an output directory, writes the script, runs the
    external `k6` binary, and packages exit code / stdout tail / stderr /
    parsed summary;
  - `format_results`: extracts numeric signals from a nested results object
    with JS truthiness defaults and renders a fixed markdown table.

JS values are modelled by the inductive `Json`.  `Json.null` stands for both
JS `null` and `undefined`: in every code path of this program the two are
observably equivalent (both are falsy, both stop optional chaining, and the
only place the distinction could matter, destructuring defaults, is noted at
its use site).  JS numbers are modelled as rationals; `JsNum` adds the `NaN`
and the two infinite values of the double type.  `toNumber` implements JS
ToNumber: numbers, null, booleans directly; strings through the
StringNumericLiteral grammar (`stringToNumber`: trimmed whitespace, empty
string is 0, signed decimals with fraction and exponent, `Infinity`,
unsigned hex/octal/binary literals, NaN otherwise); arrays through their
join-with-comma string as ToPrimitive prescribes; plain objects are
`[object Object]`, never numeric.  What is deliberately not modelled, with
no effect on any claim: rounding of parsed values and of products to the
nearest IEEE-754 double (arithmetic here is exact over ℚ, which agrees with
the double computation on every threshold comparison except for strings
tuned to a threshold within double epsilon), and trimming of Unicode
space-separator characters beyond the ASCII ones, NBSP and the BOM.
-/

namespace K6MCP

inductive Json where
  | null : Json
  | bool (b : Bool) : Json
  | num (q : ℚ) : Json
  | str (s : String) : Json
  | arr (items : List Json) : Json
  | obj (fields : List (String × Json)) : Json

/-- JS truthiness: `null`/`undefined`, `false`, `0` and `""` are falsy;
objects and arrays are truthy. -/
def truthy : Json → Bool
  | .null => false
  | .bool b => b
  | .num q => decide (q ≠ 0)
  | .str s => decide (s ≠ "")
  | .arr _ => true
  | .obj _ => true

/-- JS `a || b`. -/
def jsOr (a b : Json) : Json := if truthy a then a else b

/-- Plain property access `o.k` on a value known to be non-null: objects
yield the field (or `undefined` when missing), other primitives have no such
property.  Access on `null` is modelled separately where it can occur. -/
def Json.prop : Json → String → Json
  | .obj kvs, k => (kvs.lookup k).getD Json.null
  | _, _ => .null

/-- Optional chaining `o?.k`: short-circuits to `undefined` on
`null`/`undefined`, otherwise plain property access. -/
def propOpt (v : Json) (k : String) : Json :=
  match v with
  | .null => .null
  | j => j.prop k

/-- Lookup along a path of object keys (used to state claims about raw
input shapes). -/
def Json.atPath : Json → List String → Option Json
  | j, [] => some j
  | .obj kvs, k :: ks =>
    match kvs.lookup k with
    | some v => v.atPath ks
    | none => none
  | _, _ :: _ => none

/-- A JS number: a finite value (a rational), an infinity (`neg` gives the
sign), or NaN. -/
inductive JsNum where
  | nan : JsNum
  | inf (neg : Bool) : JsNum
  | val (q : ℚ) : JsNum

/-- Multiplication of JS numbers: NaN absorbs, an infinity times zero is
NaN, an infinity times anything else keeps the product sign.  The finite
product is spelled via `mkRat` so that it evaluates inside the kernel. -/
def JsNum.mul : JsNum → JsNum → JsNum
  | .val a, .val b => .val (mkRat (a.num * b.num) (a.den * b.den))
  | .inf s, .val q => if q = 0 then .nan else .inf (Bool.xor s (decide (q < 0)))
  | .val q, .inf s => if q = 0 then .nan else .inf (Bool.xor s (decide (q < 0)))
  | .inf s, .inf t => .inf (Bool.xor s t)
  | _, _ => .nan

/-- `x < c` for a JS number against a finite literal: NaN compares false,
negative infinity is below everything, positive infinity above. -/
def JsNum.ltNum : JsNum → ℚ → Bool
  | .val a, c => decide (a < c)
  | .inf neg, _ => neg
  | .nan, _ => false

/-- Strict equality `v === 0`. -/
def jsEqZero : Json → Bool
  | .num q => decide (q = 0)
  | _ => false

/-- Pad a digit string with leading zeros up to width `d`. -/
def padZeros (s : String) (d : Nat) : String :=
  String.mk (List.replicate (d - s.data.length) '0') ++ s

/-- `toFixed d` for a non-negative rational: the rendered integer is the one
closest to `q * 10^d`, ties resolved upward, per the ECMAScript algorithm.
With `q = q.num / q.den` that integer is `⌊q * 10^d + 1/2⌋`, computed here by
floor division on the numerator and denominator directly. -/
def qToFixedAbs (q : ℚ) (d : Nat) : String :=
  let n : Nat := (Int.fdiv (2 * q.num * 10 ^ d + q.den) (2 * q.den)).toNat
  let base : Nat := 10 ^ d
  if d = 0 then toString n
  else toString (n / base) ++ "." ++ padZeros (toString (n % base)) d

/-- `Number.prototype.toFixed` on rationals (the sign is peeled first, as in
the ECMAScript algorithm). -/
def qToFixed (q : ℚ) (d : Nat) : String :=
  if q < 0 then "-" ++ qToFixedAbs (-q) d else qToFixedAbs q d

/-- `toFixed` on a JS number; on NaN and the infinities the ECMAScript
algorithm returns their ToString spelling without raising. -/
def JsNum.toFixed : JsNum → Nat → String
  | .nan, _ => "NaN"
  | .inf false, _ => "Infinity"
  | .inf true, _ => "-Infinity"
  | .val q, d => qToFixed q d

/-- `v.toFixed(d)` on a raw JS value: only numbers have the method; on any
other value the method call raises a TypeError. -/
def jsToFixed (v : Json) (d : Nat) : Except String String :=
  match v with
  | .num q => .ok (qToFixed q d)
  | _ => .error "toFixed is not a function"

/-- `String.prototype.trim`: strip whitespace from both ends (spelled out on
the character list so that it evaluates inside the kernel). -/
def trimJS (s : String) : String :=
  String.mk (((s.data.dropWhile Char.isWhitespace).reverse.dropWhile
    Char.isWhitespace).reverse)

/-- The three-backtick characters, as a character list. -/
def fenceMarker : List Char := "```".data

/-- `script.replace(/^```[a-z]*\n/i, "")`: remove a leading line made of
three backticks, zero or more ASCII letters (the `i` flag admits either
case) and a newline.  Anything else, including a tag with a digit or
trailing spaces on the fence line, is not touched. -/
def stripLeadingFence (s : String) : String :=
  match s.data with
  | c1 :: c2 :: c3 :: rest =>
    if [c1, c2, c3] = fenceMarker then
      match rest.dropWhile Char.isAlpha with
      | '\n' :: tail => String.mk tail
      | _ => s
    else s
  | _ => s

/-- `script.replace(/\n```$/i, "")`: remove a newline followed by three
backticks when they sit at the very end of the string (the unanchored `$`
matches only the end of input). -/
def stripTrailingFence (s : String) : String :=
  match s.data.reverse with
  | c1 :: c2 :: c3 :: '\n' :: rest =>
    if [c3, c2, c1] = fenceMarker then String.mk rest.reverse else s
  | _ => s

/-- The `generate_k6_script` clean-up of the completion text:
`script.replace(/^```[a-z]*\n/i, "").replace(/\n```$/i, "").trim()`. -/
def cleanScript (script : String) : String :=
  trimJS (stripTrailingFence (stripLeadingFence script))

mutual

/-- JS `String(x)` on the values reachable here.  The flag says whether the
value is being rendered as an array element inside `Array.prototype.join`,
where `null`/`undefined` print as the empty string.  A rational with a
denominator other than one is printed as an exact decimal of up to 17
fractional digits; JS prints the shortest decimal that round-trips the
underlying binary float, which agrees on the integral values all claims
use. -/
def jsDisplayAux : Bool → Json → String
  | true, Json.null => ""
  | false, Json.null => "null"
  | _, Json.bool true => "true"
  | _, Json.bool false => "false"
  | _, Json.num q =>
    if q.den = 1 then toString q.num
    else qToFixed q 17
  | _, Json.str s => s
  | _, Json.arr xs => String.intercalate "," (jsDisplayElems xs)
  | _, Json.obj _ => "[object Object]"

def jsDisplayElems : List Json → List String
  | [] => []
  | x :: xs => jsDisplayAux true x :: jsDisplayElems xs

end

def jsDisplay (v : Json) : String := jsDisplayAux false v

/-! ### JS ToNumber

The StringNumericLiteral grammar, implemented over ℚ (exact; rounding to
the nearest double is outside the model, see the module comment). -/

/-- Numeric value of a hexadecimal digit character. -/
def hexDigitVal (c : Char) : Option Nat :=
  if 48 ≤ c.toNat ∧ c.toNat ≤ 57 then some (c.toNat - 48)
  else if 97 ≤ c.toNat ∧ c.toNat ≤ 102 then some (c.toNat - 87)
  else if 65 ≤ c.toNat ∧ c.toNat ≤ 70 then some (c.toNat - 55)
  else none

/-- Consume leading digits of the given base: the accumulated value, the
number of digits consumed, and the rest of the characters. -/
def takeDigits (base : Nat) : List Char → Nat → Nat → Nat × Nat × List Char
  | [], acc, n => (acc, n, [])
  | c :: cs, acc, n =>
    match hexDigitVal c with
    | some d =>
      if d < base then takeDigits base cs (acc * base + d) (n + 1)
      else (acc, n, c :: cs)
    | none => (acc, n, c :: cs)

/-- An optional exponent part closing the literal: `e` or `E`, an optional
sign, at least one digit, and nothing after it.  The empty rest means
exponent zero. -/
def parseExponent : List Char → Option Int
  | [] => some 0
  | c :: cs =>
    if c = 'e' ∨ c = 'E' then
      match cs with
      | '+' :: ds =>
        let (v, n, rest) := takeDigits 10 ds 0 0
        if 0 < n ∧ rest.isEmpty then some (Int.ofNat v) else none
      | '-' :: ds =>
        let (v, n, rest) := takeDigits 10 ds 0 0
        if 0 < n ∧ rest.isEmpty then some (-(Int.ofNat v)) else none
      | ds =>
        let (v, n, rest) := takeDigits 10 ds 0 0
        if 0 < n ∧ rest.isEmpty then some (Int.ofNat v) else none
    else none

/-- The rational `sign * mant / 10^fracDigits * 10^exp`, built with one
`mkRat` so that it evaluates inside the kernel. -/
def decValue (neg : Bool) (mant : Nat) (fracDigits : Nat) (exp : Int) : ℚ :=
  let sign : Int := if neg then -1 else 1
  if 0 ≤ exp then mkRat (sign * mant * 10 ^ exp.toNat) (10 ^ fracDigits)
  else mkRat (sign * mant) (10 ^ (fracDigits + (-exp).toNat))

/-- A StrUnsignedDecimalLiteral other than `Infinity`: digits with an
optional fraction and exponent, or a fraction alone. -/
def parseDecimalBody (neg : Bool) (cs : List Char) : Option ℚ :=
  match cs with
  | '.' :: ds =>
    let (f, nf, rest) := takeDigits 10 ds 0 0
    if 0 < nf then (parseExponent rest).map (fun e => decValue neg f nf e)
    else none
  | _ =>
    let (ip, ni, rest) := takeDigits 10 cs 0 0
    if 0 < ni then
      match rest with
      | '.' :: ds =>
        let (f, nf, rest2) := takeDigits 10 ds 0 0
        (parseExponent rest2).map (fun e => decValue neg (ip * 10 ^ nf + f) nf e)
      | _ => (parseExponent rest).map (fun e => decValue neg ip 0 e)
    else none

/-- An unsigned non-decimal integer literal body (after `0x`, `0o` or
`0b`). -/
def nonDecValue (base : Nat) (ds : List Char) : JsNum :=
  let (v, n, rest) := takeDigits base ds 0 0
  if 0 < n ∧ rest.isEmpty then .val (mkRat (Int.ofNat v) 1) else .nan

/-- A signed body: `Infinity` gives the signed infinity, otherwise the
decimal grammar; anything unparsable is NaN. -/
def fromBody (neg : Bool) (rest : List Char) : JsNum :=
  if rest = "Infinity".data then .inf neg
  else
    match parseDecimalBody neg rest with
    | some q => .val q
    | none => .nan

/-- Strip an optional leading sign and parse the body. -/
def fromSigned : List Char → JsNum
  | '+' :: rest => fromBody false rest
  | '-' :: rest => fromBody true rest
  | t => fromBody false t

/-- StrWhiteSpace as trimmed by ToNumber: the ASCII whitespace characters
plus vertical tab, form feed, NBSP and the BOM (further Unicode
space-separator characters are outside the model). -/
def jsStrWhite (c : Char) : Bool :=
  c.isWhitespace || c.toNat = 11 || c.toNat = 12 || c.toNat = 160 ||
    c.toNat = 65279

/-- JS ToNumber on a string: trim whitespace; the empty string is 0; an
unsigned hex, octal or binary literal, or a signed decimal or `Infinity`
literal, is its value; anything else is NaN. -/
def stringToNumber (s : String) : JsNum :=
  let t := ((s.data.dropWhile jsStrWhite).reverse.dropWhile jsStrWhite).reverse
  match t with
  | [] => .val 0
  | '0' :: c :: ds =>
    if c = 'x' ∨ c = 'X' then nonDecValue 16 ds
    else if c = 'o' ∨ c = 'O' then nonDecValue 8 ds
    else if c = 'b' ∨ c = 'B' then nonDecValue 2 ds
    else fromSigned t
  | _ => fromSigned t

/-- JS ToNumber on the values reachable here: null (and undefined, which
only reaches arithmetic through `||` defaults in this program) is 0,
booleans are 0 or 1, numbers are themselves, strings go through the string
grammar, arrays through their join-with-comma rendering (ToPrimitive calls
their toString), and plain objects render as `[object Object]`, which is
never numeric. -/
def toNumber : Json → JsNum
  | .null => .val 0
  | .bool b => .val (if b then 1 else 0)
  | .num q => .val q
  | .str s => stringToNumber s
  | .arr xs => stringToNumber (jsDisplay (Json.arr xs))
  | .obj _ => .nan

/-- `v < c` where `v` is a raw JS value (relational comparison coerces). -/
def jsLtNum (v : Json) (c : ℚ) : Bool := (toNumber v).ltNum c

/-! ### The `format_results` handler

Each definition below transcribes one `const` line of the handler (source
lines 149–157).  The inputs `resultsJson`, `exitCode` and `stack` arrive as
raw JS values from the request arguments.  `metrics`, `httpReqDuration` and
`httpReqFailed` are outputs of `||` with an object default, hence never
null, so the subsequent plain property accesses cannot raise; the only
plain access that can raise is `resultsJson.metrics` itself, handled in
`formatParts`. -/

/-- `const metrics = resultsJson.metrics || {};` -/
def metricsVal (r : Json) : Json := jsOr (r.prop "metrics") (Json.obj [])

/-- `const httpReqDuration = metrics.http_req_duration?.values || {};` -/
def durationValues (r : Json) : Json :=
  jsOr (propOpt ((metricsVal r).prop "http_req_duration") "values") (Json.obj [])

/-- `const httpReqFailed = metrics.http_req_failed?.values || {};` -/
def failedValues (r : Json) : Json :=
  jsOr (propOpt ((metricsVal r).prop "http_req_failed") "values") (Json.obj [])

/-- `const p95 = httpReqDuration["p(95)"] || 0;` -/
def p95Val (r : Json) : Json := jsOr ((durationValues r).prop "p(95)") (Json.num 0)

/-- `const errorRate = (httpReqFailed.rate || 0) * 100;` -/
def errorRateVal (r : Json) : JsNum :=
  (toNumber (jsOr ((failedValues r).prop "rate") (Json.num 0))).mul (.val 100)

/-- `const rps = metrics.http_reqs?.values?.rate || 0;` -/
def rpsVal (r : Json) : Json :=
  jsOr (propOpt (propOpt ((metricsVal r).prop "http_reqs") "values") "rate") (Json.num 0)

def passGlyph : String := "✅"

def failGlyph : String := "❌"

/-- `const p95Status = p95 < 500 ? "✅" : "❌";` -/
def p95StatusVal (r : Json) : String :=
  if jsLtNum (p95Val r) 500 then passGlyph else failGlyph

/-- `const errorStatus = errorRate < 1 ? "✅" : "❌";` -/
def errorStatusVal (r : Json) : String :=
  if (errorRateVal r).ltNum 1 then passGlyph else failGlyph

/-- `const overallStatus = (exitCode === 0 && p95 < 500 && errorRate < 1) ? "✅" : "❌";` -/
def overallStatusVal (r exitCode : Json) : String :=
  if jsEqZero exitCode && jsLtNum (p95Val r) 500 && (errorRateVal r).ltNum 1
  then passGlyph else failGlyph

/-- The markdown template of source lines 158–171, before the final
`.trim()`.  The numeric cells arrive already rendered because `toFixed` can
raise and is sequenced by the caller. -/
def tableTemplate (overall p95Str p95St errStr errSt rpsStr stackStr : String) :
    String :=
  "\n## " ++ overall ++ " k6 Performance Test Results\n\n" ++
  "| Metric | Value | Threshold | Status |\n" ++
  "|--------|-------|-----------|--------|\n" ++
  "| P95 Response Time | " ++ p95Str ++ " ms | < 500 ms | " ++ p95St ++ " |\n" ++
  "| Error Rate | " ++ errStr ++ "% | < 1% | " ++ errSt ++ " |\n" ++
  "| Throughput | " ++ rpsStr ++ " req/s | — | ℹ️ |\n\n" ++
  "**Verdict:** " ++
  (if overall = passGlyph then "Performance looks good!"
   else "Thresholds breached. Please check logs.") ++
  "\n      \n---\n*Powered by K6 MCP Server · Stack: " ++ stackStr ++ "*\n"

/-- The `format_results` handler body (source lines 147–174), producing the
markdown text.  `resultsJson.metrics` raises a TypeError when `resultsJson`
is null or undefined; the two `toFixed` calls on raw extracted values raise
when those values are truthy non-numbers.  Both surface as `Except.error`
and are converted to failure envelopes by the dispatcher. -/
def formatResults (resultsJson exitCode stack : Json) : Except String String :=
  match resultsJson with
  | .null => .error "Cannot read properties of null (reading metrics)"
  | r => do
    let p95Str ← jsToFixed (p95Val r) 2
    let errStr := (errorRateVal r).toFixed 4
    let rpsStr ← jsToFixed (rpsVal r) 2
    pure (trimJS (tableTemplate (overallStatusVal r exitCode) p95Str
      (p95StatusVal r) errStr (errorStatusVal r) rpsStr (jsDisplay stack)))

/-! ### The `run_k6_test` handler

The external pieces — the filesystem, the spawned `k6` process, and
`JSON.parse` on the summary file — are oracles.  The filesystem is the set
of existing directories; the process is its exit code, its two output
streams, and what it left at the summary path.  A summary file is either
absent, present but rejected by `JSON.parse`, or present with a parse
result, which models the try/catch around `JSON.parse` in the source
without re-implementing the platform parser. -/

inductive SummaryFile where
  | absent : SummaryFile
  | malformed : SummaryFile
  | parsed (j : Json) : SummaryFile

/-- The observable behaviour of the spawned `k6` process: exit code, the
accumulated stdout and stderr streams, and the summary file it left (or did
not leave) at the export path. -/
structure K6Proc where
  exitCode : Int
  stdout : String
  stderr : String
  summary : SummaryFile

/-- The object built in the `close` callback (source lines 136–141) and
serialized into the reply. -/
structure RunPayload where
  exitCode : Int
  stdout : String
  stderr : String
  summaryData : Json

/-- `mkdirSync`: with the recursive option creating an existing directory
succeeds silently; without it the call raises.  (Creation of missing parent
components is not modelled; the handler only ever creates one level.) -/
def mkdirSync (dirs : List String) (d : String) (recursive : Bool) :
    Except String (List String) :=
  if d ∈ dirs then
    if recursive then .ok dirs else .error "EEXIST: file already exists, mkdir"
  else .ok (d :: dirs)

/-- The directory set after the guarded creation
`if (!existsSync(outputDir)) mkdirSync(outputDir, { recursive: true })`. -/
def ensuredDirs (dirs : List String) (d : String) : List String :=
  if d ∈ dirs then dirs else d :: dirs

/-- `let summary = {}; try { if (existsSync(summaryPath)) summary =
JSON.parse(readFileSync(summaryPath, "utf-8")); } catch (e) { }` -/
def summaryOrEmpty : SummaryFile → Json
  | .absent => Json.obj []
  | .malformed => Json.obj []
  | .parsed j => j

/-- `stdout.slice(-1000)`: the last 1000 characters (the whole string when
shorter).  JS indexes UTF-16 units; the char-level model agrees on all
plain-text output. -/
def lastChars (s : String) (n : Nat) : String :=
  String.mk (s.data.drop (s.data.length - n))

/-- `writeFileSync` data argument: only strings are accepted here; any
other value makes the call raise a TypeError. -/
def writeData : Json → Except String String
  | .str s => .ok s
  | _ => .error "The data argument must be of type string"

/-- `path.join` component: a non-string path component raises a
TypeError.  In the source this happens at line 111, before the directory
guard and the script write. -/
def pathString : Json → Except String String
  | .str s => .ok s
  | _ => .error "The path argument must be of type string"

/-- Source lines 112–145: ensure the output directory, write the script
file, spawn `k6`, and on process close package exit code, stdout tail,
stderr and the parsed (or defaulted) summary.  The returned directory set
is the one in effect when the process is spawned. -/
def runK6Test (fs : List String) (outputDir : String) (scriptContent : Json)
    (proc : K6Proc) : Except String (List String × RunPayload) := do
  let fs2 ← if outputDir ∈ fs then pure fs else mkdirSync fs outputDir true
  let _ ← writeData scriptContent
  pure (fs2,
    { exitCode := proc.exitCode
      stdout := lastChars proc.stdout 1000
      stderr := proc.stderr
      summaryData := summaryOrEmpty proc.summary })

/-! ### The dispatcher -/

/-- The reply of the completion service: HTTP success with the completion text
already extracted from `data.choices[0].message.content`, or a non-success
response with its error body. -/
inductive OllamaResp where
  | success (content : String) : OllamaResp
  | failure (body : String) : OllamaResp

/-- The completion service as an oracle from the two submitted prompts to a
reply. -/
def OllamaSvc := String → String → OllamaResp

/-- `callOllama` (source lines 24–45): on a non-success response raise
`Ollama error: <body>`, otherwise return the completion text. -/
def callOllama (svc : OllamaSvc) (systemPrompt userPrompt : String) :
    Except String String :=
  match svc systemPrompt userPrompt with
  | .failure body => .error ("Ollama error: " ++ body)
  | .success content => .ok content

/-- The system prompt template of source lines 97–99, including its line
breaks and trailing spaces. -/
def ollamaSystemPrompt (targetUrl : Json) : String :=
  "You are an expert k6 engineer. Generate a k6 script. Output ONLY raw JS. \n" ++
  "      Target URL: " ++ jsDisplay targetUrl ++
  ". Stages: 10s ramp to 10 VUs, 20s hold, 5s ramp down. \n" ++
  "      Thresholds: p(95)<500, rate<0.01. Use groups and checks."

/-- The user prompt template of source line 100. -/
def ollamaUserPrompt (prompt techStack : Json) : String :=
  "PR Context: " ++ jsDisplay prompt ++ "\nTech Stack: " ++ jsDisplay techStack

/-- One content block of a reply envelope.  The `run_k6_test` success reply
is `JSON.stringify(payload, null, 2)` in a text block; the payload is
carried structurally here because the serialization belongs to the platform and
no claim depends on its spelling. -/
inductive Content where
  | text (s : String) : Content
  | reportText (p : RunPayload) : Content

/-- A reply envelope.  Success replies in the source simply omit `isError`,
which reads back as falsy; that is modelled as `isError := false`. -/
structure Envelope where
  content : Content
  isError : Bool

/-- Destructuring default `x = d`: applied when the property is absent
(`undefined`; JS would keep an explicit `null`, which this model conflates
with `undefined` — no claim distinguishes the two). -/
def defaultIfUndef (v d : Json) : Json :=
  match v with
  | .null => d
  | x => x

/-- The world the dispatcher runs against: the completion service, the
filesystem directories, and the `k6` process behaviour. -/
structure World where
  ollama : OllamaSvc
  fs : List String
  k6 : K6Proc

/-- An incoming tool call: `request.params.name` and
`request.params.arguments`. -/
structure CallRequest where
  name : String
  args : Json

/-- The `generate_k6_script` branch (source lines 95–107).  The second
component counts completion-service calls actually performed: the branch
makes exactly one, whatever the outcome, and none when the argument
destructuring raises first. -/
def genBranch (svc : OllamaSvc) (args : Json) : Except String Envelope × Nat :=
  match args with
  | .null => (.error "Cannot destructure arguments as they are null", 0)
  | a =>
    let prompt := a.prop "prompt"
    let techStack := a.prop "techStack"
    let targetUrl := defaultIfUndef (a.prop "targetUrl")
      (Json.str "http://localhost:8080")
    match callOllama svc (ollamaSystemPrompt targetUrl)
        (ollamaUserPrompt prompt techStack) with
    | .error m => (.error m, 1)
    | .ok script => (.ok ⟨.text (cleanScript script), false⟩, 1)

/-- The `run_k6_test` branch (source lines 108–146). -/
def runBranch (fs : List String) (proc : K6Proc) (args : Json) :
    Except String Envelope :=
  match args with
  | .null => .error "Cannot destructure arguments as they are null"
  | a => do
    let scriptContent := a.prop "scriptContent"
    let outputDir := defaultIfUndef (a.prop "outputDir") (Json.str "k6-results")
    let odStr ← pathString outputDir
    let res ← runK6Test fs odStr scriptContent proc
    pure ⟨.reportText res.2, false⟩

/-- The `format_results` branch (source lines 147–175). -/
def formatBranch (args : Json) : Except String Envelope :=
  match args with
  | .null => .error "Cannot destructure arguments as they are null"
  | a => do
    let out ← formatResults (a.prop "resultsJson") (a.prop "exitCode")
      (a.prop "stack")
    pure ⟨.text out, false⟩

/-- The body of the `try` block (source lines 94–180): three name-guarded
branches and the unknown-tool reply.  The `Nat` component counts
completion-service calls. -/
def handleTool (w : World) (req : CallRequest) : Except String Envelope × Nat :=
  if req.name = "generate_k6_script" then genBranch w.ollama req.args
  else if req.name = "run_k6_test" then (runBranch w.fs w.k6 req.args, 0)
  else if req.name = "format_results" then (formatBranch req.args, 0)
  else (.ok ⟨.text ("Unknown tool: " ++ req.name), true⟩, 0)

/-- The whole `CallToolRequestSchema` handler: the `try` body wrapped in
the `catch` that turns any raised error into a failure envelope carrying
`Error: <message>` (source lines 181–186). -/
def dispatchResult (w : World) (req : CallRequest) : Envelope × Nat :=
  match handleTool w req with
  | (.ok env, n) => (env, n)
  | (.error msg, n) => (⟨.text ("Error: " ++ msg), true⟩, n)

/-- The envelope the dispatcher replies with. -/
def dispatchTool (w : World) (req : CallRequest) : Envelope :=
  (dispatchResult w req).1

/-- How many calls the dispatcher made to the completion service while
serving the request. -/
def ollamaCalls (w : World) (req : CallRequest) : Nat :=
  (dispatchResult w req).2

/-! ### Fence-line predicates

These formalise the words of the specification — "a triple-backtick fence
line (three backticks optionally followed by a language tag)" at the start
or the end of the returned text — to state the fence-stripping claim. -/

/-- The first line of a string. -/
def firstLine (s : String) : String :=
  String.mk (s.data.takeWhile fun c => c ≠ '\n')

/-- The last line of a string. -/
def lastLine (s : String) : String :=
  String.mk ((s.data.reverse.takeWhile fun c => c ≠ '\n').reverse)

/-- Three backticks optionally followed by a language tag. -/
def isFenceLine (l : String) : Bool :=
  match l.data with
  | c1 :: c2 :: c3 :: rest =>
    decide ([c1, c2, c3] = fenceMarker) && rest.all Char.isAlpha
  | _ => false

/-- The text begins with a fence line. -/
def beginsWithFenceLine (s : String) : Bool := isFenceLine (firstLine s)

/-- The text ends with a fence line. -/
def endsWithFenceLine (s : String) : Bool := isFenceLine (lastLine s)

/-! ### Supporting lemmas -/

/-- The numerator-and-denominator product used in `JsNum.mul` is ordinary
rational multiplication (spelled via `mkRat` so that it evaluates inside
the kernel). -/
theorem jsnum_mul_eq_mul (a b : ℚ) :
    mkRat (a.num * b.num) (a.den * b.den) = a * b := by
  rw [Rat.mul_def]
  simp [Rat.normalize_eq_mkRat]

/-- Unfolding of `stripLeadingFence` on an explicit three-character head. -/
lemma stripLeadingFence_cons (c1 c2 c3 : Char) (rest : List Char) :
    stripLeadingFence (String.mk (c1 :: c2 :: c3 :: rest)) =
      if [c1, c2, c3] = fenceMarker then
        match rest.dropWhile Char.isAlpha with
        | '\n' :: tail => String.mk tail
        | _ => String.mk (c1 :: c2 :: c3 :: rest)
      else String.mk (c1 :: c2 :: c3 :: rest) := rfl

/-- `stripTrailingFence` on a string that ends with a newline and three
backticks drops those four characters. -/
lemma stripTrailingFence_rev (s : String) (rest : List Char)
    (h : s.data.reverse =
      Char.ofNat 96 :: Char.ofNat 96 :: Char.ofNat 96 :: '\n' :: rest) :
    stripTrailingFence s = String.mk rest.reverse := by
  unfold stripTrailingFence
  rw [h]
  rfl

/-! ### Claim C1: fence stripping -/

/-- C1, counterexample: the claim says the text returned by
`generate_k6_script` never begins or ends with a triple-backtick fence
line, for every completion the service returns.  The completion
consisting of an empty fenced block refutes it: the leading-fence replace
consumes the opening fence and the newline, after which the closing fence
no longer matches the trailing pattern, so the returned text is exactly a
fence line — it both begins and ends with one. -/
theorem claim1_counterexample :
    cleanScript "```\n```" = "```" ∧
    beginsWithFenceLine (cleanScript "```\n```") = true ∧
    endsWithFenceLine (cleanScript "```\n```") = true :=
  ⟨rfl, rfl, rfl⟩

/-- C1, amended: for a completion wrapped in a canonical fence pair — an
opening line of three backticks plus a purely alphabetic language tag
terminated by a newline, and a closing newline-plus-three-backticks at the
very end — the returned text is the enclosed body, whitespace-trimmed; in
particular it neither begins nor ends with a fence line whenever the
trimmed body itself does not.  Fences in any other shape (an empty fenced
body, trailing whitespace after the closing fence, a tag with a digit) are
not stripped and can survive into the output. -/
theorem claim1_amended (tag body : String)
    (htag : tag.data.all Char.isAlpha = true) :
    cleanScript ("```" ++ tag ++ "\n" ++ body ++ "\n```") = trimJS body ∧
    (beginsWithFenceLine (trimJS body) = false →
      beginsWithFenceLine (cleanScript ("```" ++ tag ++ "\n" ++ body ++ "\n```")) = false) ∧
    (endsWithFenceLine (trimJS body) = false →
      endsWithFenceLine (cleanScript ("```" ++ tag ++ "\n" ++ body ++ "\n```")) = false) := by
  have hw : ("```" ++ tag ++ "\n" ++ body ++ "\n```") =
      String.mk (Char.ofNat 96 :: Char.ofNat 96 :: Char.ofNat 96 ::
        (tag.data ++ '\n' :: (body.data ++ '\n' ::
          [Char.ofNat 96, Char.ofNat 96, Char.ofNat 96]))) := by
    apply String.ext
    simp only [String.data_append, List.append_assoc]
    rfl
  have hdw : (tag.data ++ '\n' :: (body.data ++ '\n' ::
      [Char.ofNat 96, Char.ofNat 96, Char.ofNat 96])).dropWhile Char.isAlpha =
      '\n' :: (body.data ++ '\n' ::
        [Char.ofNat 96, Char.ofNat 96, Char.ofNat 96]) := by
    rw [List.dropWhile_append]
    have h1 : tag.data.dropWhile Char.isAlpha = [] := by
      rw [List.dropWhile_eq_nil_iff]
      intro x hx
      exact List.all_eq_true.mp htag x hx
    rw [h1]
    simp
  have hlead : stripLeadingFence ("```" ++ tag ++ "\n" ++ body ++ "\n```") =
      String.mk (body.data ++ '\n' ::
        [Char.ofNat 96, Char.ofNat 96, Char.ofNat 96]) := by
    rw [hw, stripLeadingFence_cons, if_pos (by rfl), hdw]
    rfl
  have htrail : stripTrailingFence (String.mk (body.data ++ '\n' ::
      [Char.ofNat 96, Char.ofNat 96, Char.ofNat 96])) = body := by
    rw [stripTrailingFence_rev _ body.data.reverse]
    · obtain ⟨l⟩ := body
      simp
    · simp
  have hmain : cleanScript ("```" ++ tag ++ "\n" ++ body ++ "\n```") = trimJS body := by
    unfold cleanScript
    rw [hlead, htrail]
  exact ⟨hmain, fun h => by rw [hmain]; exact h, fun h => by rw [hmain]; exact h⟩

/-- C1, witness: the amended theorem applied to the canonical wrap of a
one-line script with the `js` tag. -/
theorem claim1_amended_witness :
    ("js".data.all Char.isAlpha = true) ∧
    cleanScript "```js\nconsole.log(1);\n```" = "console.log(1);" := by
  refine ⟨by decide, ?_⟩
  have h := (claim1_amended "js" "console.log(1);" (by decide)).1
  simpa using h

/-! ### Claims C2, C3, C4, C10: the results formatter -/

/-- C2, counterexample: the claim asserts that on every results object with
some or all of the three signals absent the formatter returns a table and
never raises.  A results object whose duration and failure signals are
absent — squarely inside the claimed family — but whose throughput slot
holds a non-numeric value refutes the never-raises part: the present
`http_reqs.values.rate` reaches `rps.toFixed(2)`, which raises a TypeError
(surfaced by the dispatcher as a failure envelope). -/
theorem claim2_counterexample :
    (metricsVal (Json.obj [("metrics", Json.obj [("http_reqs",
        Json.obj [("values", Json.obj [("rate", Json.str "x")])])])])).prop
      "http_req_duration" = Json.null ∧
    (metricsVal (Json.obj [("metrics", Json.obj [("http_reqs",
        Json.obj [("values", Json.obj [("rate", Json.str "x")])])])])).prop
      "http_req_failed" = Json.null ∧
    formatResults (Json.obj [("metrics", Json.obj [("http_reqs",
        Json.obj [("values", Json.obj [("rate", Json.str "x")])])])])
      (Json.num 0) (Json.str "node") =
      Except.error "toFixed is not a function" :=
  ⟨rfl, rfl, rfl⟩

/-- C2, amended: every signal whose traversal reaches no value — which is
what absence of the key at any step of its path produces — extracts as zero
and renders with the fixed precision: the p95 cell as `0.00`, the
error-rate cell as `0.0000`, the throughput cell as `0.00`; and the
formatter raises no error provided the p95 and throughput slots extract as
numbers, which absence gives for free.  In particular, with all three
signals absent the formatter returns a table without error; an error can
arise only from a present non-numeric p95 or throughput value reaching
`toFixed`, as the counterexample shows. -/
theorem claim2_amended (kvs : List (String × Json)) (e s : Json) :
    ((durationValues (Json.obj kvs)).prop "p(95)" = Json.null →
      p95Val (Json.obj kvs) = Json.num 0 ∧
      jsToFixed (p95Val (Json.obj kvs)) 2 = Except.ok "0.00") ∧
    ((failedValues (Json.obj kvs)).prop "rate" = Json.null →
      errorRateVal (Json.obj kvs) = JsNum.val 0 ∧
      (errorRateVal (Json.obj kvs)).toFixed 4 = "0.0000") ∧
    (propOpt (propOpt ((metricsVal (Json.obj kvs)).prop "http_reqs")
        "values") "rate" = Json.null →
      rpsVal (Json.obj kvs) = Json.num 0 ∧
      jsToFixed (rpsVal (Json.obj kvs)) 2 = Except.ok "0.00") ∧
    (∀ qp qr : ℚ, p95Val (Json.obj kvs) = Json.num qp →
      rpsVal (Json.obj kvs) = Json.num qr →
      ∃ out, formatResults (Json.obj kvs) e s = Except.ok out) := by
  refine ⟨?_, ?_, ?_, ?_⟩
  · intro hd
    have hp : p95Val (Json.obj kvs) = Json.num 0 := by
      unfold p95Val; rw [hd]; rfl
    exact ⟨hp, by rw [hp]; rfl⟩
  · intro hf
    have he : errorRateVal (Json.obj kvs) = JsNum.val 0 := by
      unfold errorRateVal; rw [hf]; rfl
    exact ⟨he, by rw [he]; rfl⟩
  · intro hr
    have hrp : rpsVal (Json.obj kvs) = Json.num 0 := by
      unfold rpsVal; rw [hr]; rfl
    exact ⟨hrp, by rw [hrp]; rfl⟩
  · intro qp qr hqp hqr
    refine ⟨trimJS (tableTemplate (overallStatusVal (Json.obj kvs) e)
      (qToFixed qp 2) (p95StatusVal (Json.obj kvs))
      ((errorRateVal (Json.obj kvs)).toFixed 4)
      (errorStatusVal (Json.obj kvs)) (qToFixed qr 2) (jsDisplay s)), ?_⟩
    simp only [formatResults]
    rw [hqp, hqr]
    rfl

/-- C2, witness: the empty results object with exit code zero — all three
signals absent, every hypothesis discharged, a table produced. -/
theorem claim2_witness :
    p95Val (Json.obj []) = Json.num 0 ∧
    jsToFixed (p95Val (Json.obj [])) 2 = Except.ok "0.00" ∧
    (errorRateVal (Json.obj [])).toFixed 4 = "0.0000" ∧
    ∃ out, formatResults (Json.obj []) (Json.num 0) (Json.str "node") =
      Except.ok out :=
  have h := claim2_amended [] (Json.num 0) (Json.str "node")
  ⟨(h.1 rfl).1, (h.1 rfl).2, (h.2.1 rfl).2,
    h.2.2.2 0 0 (h.1 rfl).1 (h.2.2.1 rfl).1⟩

/-- Helper: when the p95 slot makes `toFixed` raise, the whole handler
raises with that message. -/
lemma formatResults_p95_toFixed_error (r e s : Json) (m : String)
    (hr : r ≠ Json.null)
    (hjt : jsToFixed (p95Val r) 2 = Except.error m) :
    formatResults r e s = Except.error m := by
  cases r with
  | null => exact absurd rfl hr
  | bool b => simp only [formatResults]; rw [hjt]; rfl
  | num q => simp only [formatResults]; rw [hjt]; rfl
  | str s2 => simp only [formatResults]; rw [hjt]; rfl
  | arr xs => simp only [formatResults]; rw [hjt]; rfl
  | obj kvs => simp only [formatResults]; rw [hjt]; rfl

/-- Helper: a rendered table forces the extracted p95 to be an actual
number — a truthy non-number at that slot makes `toFixed` raise before any
output is produced. -/
lemma formatResults_ok_p95_num (r e s : Json) (out : String)
    (hout : formatResults r e s = Except.ok out) :
    ∃ q, p95Val r = Json.num q := by
  have hr : r ≠ Json.null := by
    intro hnull
    rw [hnull] at hout
    simp [formatResults] at hout
  cases hpv : p95Val r with
  | num q => exact ⟨q, rfl⟩
  | null =>
    rw [formatResults_p95_toFixed_error r e s _ hr (by rw [hpv]; rfl)] at hout
    exact Except.noConfusion hout
  | bool b =>
    rw [formatResults_p95_toFixed_error r e s _ hr (by rw [hpv]; rfl)] at hout
    exact Except.noConfusion hout
  | str s2 =>
    rw [formatResults_p95_toFixed_error r e s _ hr (by rw [hpv]; rfl)] at hout
    exact Except.noConfusion hout
  | arr xs =>
    rw [formatResults_p95_toFixed_error r e s _ hr (by rw [hpv]; rfl)] at hout
    exact Except.noConfusion hout
  | obj kvs =>
    rw [formatResults_p95_toFixed_error r e s _ hr (by rw [hpv]; rfl)] at hout
    exact Except.noConfusion hout

/-- C3: for every rendered `format_results` table, the overall verdict
glyph is the pass glyph exactly when the exit code is the number 0, the
extracted p95 duration is a number strictly below 500, and the extracted
error rate (in percent) is strictly below 1 — a finite value below 1 or
negative infinity, the one non-finite value a coerced rate can produce that
is below every threshold; and whenever the exit code is a nonzero number
the overall verdict is the fail glyph, whatever the metrics. -/
theorem claim3 (r e s : Json) (out : String)
    (hout : formatResults r e s = Except.ok out) :
    (overallStatusVal r e = passGlyph ↔
      (e = Json.num 0 ∧
        (∃ q : ℚ, toNumber (p95Val r) = JsNum.val q ∧ q < 500) ∧
        ((∃ q : ℚ, errorRateVal r = JsNum.val q ∧ q < 1) ∨
          errorRateVal r = JsNum.inf true))) ∧
    (∀ q : ℚ, e = Json.num q → q ≠ 0 → overallStatusVal r e = failGlyph) := by
  have glyphs : passGlyph ≠ failGlyph := by decide
  obtain ⟨qp, hqp⟩ := formatResults_ok_p95_num r e s out hout
  have h1 : jsEqZero e = true ↔ e = Json.num 0 := by
    cases e <;> simp [jsEqZero]
  have h2 : jsLtNum (p95Val r) 500 = true ↔
      (∃ q : ℚ, toNumber (p95Val r) = JsNum.val q ∧ q < 500) := by
    rw [hqp]
    simp [jsLtNum, toNumber, JsNum.ltNum]
  have h3 : (errorRateVal r).ltNum 1 = true ↔
      ((∃ q : ℚ, errorRateVal r = JsNum.val q ∧ q < 1) ∨
        errorRateVal r = JsNum.inf true) := by
    cases he2 : errorRateVal r with
    | nan => simp [he2, JsNum.ltNum]
    | inf neg => cases neg <;> simp [he2, JsNum.ltNum]
    | val q => simp [he2, JsNum.ltNum]
  constructor
  · constructor
    · intro hpass
      have hb : (jsEqZero e && jsLtNum (p95Val r) 500 &&
          (errorRateVal r).ltNum 1) = true := by
        by_contra hb
        unfold overallStatusVal at hpass
        rw [if_neg hb] at hpass
        exact glyphs hpass.symm
      rw [Bool.and_eq_true, Bool.and_eq_true] at hb
      exact ⟨h1.mp hb.1.1, h2.mp hb.1.2, h3.mp hb.2⟩
    · rintro ⟨he0, hq1, hq2⟩
      have hb : (jsEqZero e && jsLtNum (p95Val r) 500 &&
          (errorRateVal r).ltNum 1) = true := by
        rw [Bool.and_eq_true, Bool.and_eq_true]
        exact ⟨⟨h1.mpr he0, h2.mpr hq1⟩, h3.mpr hq2⟩
      unfold overallStatusVal
      rw [if_pos hb]
  · intro q heq hq0
    have hb : ¬((jsEqZero e && jsLtNum (p95Val r) 500 &&
        (errorRateVal r).ltNum 1) = true) := by
      intro hb
      rw [Bool.and_eq_true, Bool.and_eq_true] at hb
      have h0 := h1.mp hb.1.1
      rw [heq] at h0
      injection h0 with h0q
      exact hq0 h0q
    unfold overallStatusVal
    rw [if_neg hb]

set_option maxRecDepth 8000 in
/-- C3, witness: the empty results object with exit code zero extracts
p95 = 0 and error rate = 0, so the overall verdict glyph is the pass
glyph. -/
theorem claim3_witness :
    overallStatusVal (Json.obj []) (Json.num 0) = passGlyph :=
  ((claim3 (Json.obj []) (Json.num 0) (Json.str "node") _ rfl).1).mpr
    ⟨rfl, ⟨0, rfl, by norm_num⟩, Or.inl ⟨0, rfl, by norm_num⟩⟩

/-- C4: when the raw input carries
`metrics.http_req_duration.values["p(95)"]` equal to exactly 500, the
duration threshold fails: the extracted p95 is 500 and the duration status
glyph in the rendered table is the fail glyph, because the comparison is a
strict `< 500`. -/
theorem claim4 (r e s : Json) (out : String)
    (hout : formatResults r e s = Except.ok out)
    (h : r.atPath ["metrics", "http_req_duration", "values", "p(95)"] =
      some (Json.num 500)) :
    p95Val r = Json.num 500 ∧ p95StatusVal r = failGlyph := by
  cases r with
  | null => simp [Json.atPath] at h
  | bool b => simp [Json.atPath] at h
  | num q => simp [Json.atPath] at h
  | str s2 => simp [Json.atPath] at h
  | arr xs => simp [Json.atPath] at h
  | obj kvs =>
    simp only [Json.atPath] at h
    cases hm : kvs.lookup "metrics" with
    | none => rw [hm] at h; simp at h
    | some m =>
      rw [hm] at h
      cases m with
      | obj kvsm =>
        simp only [Json.atPath] at h
        cases hm2 : kvsm.lookup "http_req_duration" with
        | none => rw [hm2] at h; simp at h
        | some d =>
          rw [hm2] at h
          cases d with
          | obj kvsd =>
            simp only [Json.atPath] at h
            cases hm3 : kvsd.lookup "values" with
            | none => rw [hm3] at h; simp at h
            | some v =>
              rw [hm3] at h
              cases v with
              | obj kvsv =>
                simp only [Json.atPath] at h
                cases hm4 : kvsv.lookup "p(95)" with
                | none => rw [hm4] at h; simp at h
                | some w =>
                  rw [hm4] at h
                  simp only [Json.atPath, Option.some.injEq] at h
                  subst h
                  have hmv : metricsVal (Json.obj kvs) = Json.obj kvsm := by
                    unfold metricsVal
                    simp only [Json.prop]
                    rw [hm]
                    rfl
                  have hdv : durationValues (Json.obj kvs) = Json.obj kvsv := by
                    unfold durationValues
                    rw [hmv]
                    show jsOr (propOpt (Json.prop (Json.obj kvsm)
                      "http_req_duration") "values") (Json.obj []) = _
                    simp only [Json.prop]
                    rw [hm2]
                    show jsOr (propOpt (Json.obj kvsd) "values") (Json.obj []) = _
                    unfold propOpt
                    simp only [Json.prop]
                    rw [hm3]
                    rfl
                  have hp : p95Val (Json.obj kvs) = Json.num 500 := by
                    unfold p95Val
                    rw [hdv]
                    simp only [Json.prop]
                    rw [hm4]
                    rfl
                  refine ⟨hp, ?_⟩
                  unfold p95StatusVal
                  rw [hp]
                  rfl
              | null => simp [Json.atPath] at h
              | bool b => simp [Json.atPath] at h
              | num q => simp [Json.atPath] at h
              | str s2 => simp [Json.atPath] at h
              | arr xs => simp [Json.atPath] at h
          | null => simp [Json.atPath] at h
          | bool b => simp [Json.atPath] at h
          | num q => simp [Json.atPath] at h
          | str s2 => simp [Json.atPath] at h
          | arr xs => simp [Json.atPath] at h
      | null => simp [Json.atPath] at h
      | bool b => simp [Json.atPath] at h
      | num q => simp [Json.atPath] at h
      | str s2 => simp [Json.atPath] at h
      | arr xs => simp [Json.atPath] at h

set_option maxRecDepth 8000 in
/-- C4, witness: a results object whose p95 is exactly 500. -/
theorem claim4_witness :
    p95Val (Json.obj [("metrics", Json.obj [("http_req_duration",
        Json.obj [("values", Json.obj [("p(95)", Json.num 500)])])])]) =
      Json.num 500 ∧
    p95StatusVal (Json.obj [("metrics", Json.obj [("http_req_duration",
        Json.obj [("values", Json.obj [("p(95)", Json.num 500)])])])]) =
      failGlyph :=
  claim4 _ (Json.num 0) (Json.str "node") _ rfl rfl

/-- C10: a results object that yields no usable metrics — all three signals
default to zero — with exit code 0 is reported as a passing run: both
threshold rows show the pass glyph, the overall verdict is the pass glyph,
and the rendered table is the all-zero passing table. -/
theorem claim10 (r s : Json) (h0 : r ≠ Json.null)
    (hp : p95Val r = Json.num 0) (he : errorRateVal r = JsNum.val 0)
    (hr : rpsVal r = Json.num 0) :
    p95StatusVal r = passGlyph ∧ errorStatusVal r = passGlyph ∧
      overallStatusVal r (Json.num 0) = passGlyph ∧
      formatResults r (Json.num 0) s =
        Except.ok (trimJS (tableTemplate passGlyph "0.00" passGlyph "0.0000"
          passGlyph "0.00" (jsDisplay s))) := by
  have h1 : p95StatusVal r = passGlyph := by
    unfold p95StatusVal; rw [hp]; rfl
  have h2 : errorStatusVal r = passGlyph := by
    unfold errorStatusVal; rw [he]; rfl
  have h3 : overallStatusVal r (Json.num 0) = passGlyph := by
    unfold overallStatusVal; rw [hp, he]; rfl
  refine ⟨h1, h2, h3, ?_⟩
  cases r with
  | null => exact absurd rfl h0
  | bool b => simp only [formatResults]; rw [hp, he, hr, h1, h2, h3]; rfl
  | num q => simp only [formatResults]; rw [hp, he, hr, h1, h2, h3]; rfl
  | str s2 => simp only [formatResults]; rw [hp, he, hr, h1, h2, h3]; rfl
  | arr xs => simp only [formatResults]; rw [hp, he, hr, h1, h2, h3]; rfl
  | obj kvs => simp only [formatResults]; rw [hp, he, hr, h1, h2, h3]; rfl

set_option maxRecDepth 8000 in
/-- C10, witness: the empty results object with exit code zero. -/
theorem claim10_witness :
    p95StatusVal (Json.obj []) = passGlyph ∧
      errorStatusVal (Json.obj []) = passGlyph ∧
      overallStatusVal (Json.obj []) (Json.num 0) = passGlyph ∧
      formatResults (Json.obj []) (Json.num 0) (Json.str "node") =
        Except.ok (trimJS (tableTemplate passGlyph "0.00" passGlyph "0.0000"
          passGlyph "0.00" (jsDisplay (Json.str "node")))) :=
  claim10 (Json.obj []) (Json.str "node") (by simp) rfl rfl rfl

/-! ### Claims C5, C6, C9: the dispatcher -/

/-- C5: a tool call whose name is none of `generate_k6_script`,
`run_k6_test` and `format_results` gets a failure envelope — the error flag
set and a text naming the unrecognized operation — not an exception or a
crash: the dispatcher is a total function and this reply comes from its
normal path. -/
theorem claim5 (w : World) (name : String) (args : Json)
    (h1 : name ≠ "generate_k6_script") (h2 : name ≠ "run_k6_test")
    (h3 : name ≠ "format_results") :
    dispatchTool w ⟨name, args⟩ =
      ⟨Content.text ("Unknown tool: " ++ name), true⟩ := by
  unfold dispatchTool dispatchResult handleTool
  rw [if_neg h1, if_neg h2, if_neg h3]

/-- C5, witness: an unknown tool name. -/
theorem claim5_witness :
    dispatchTool ⟨fun _ _ => .success "", [], ⟨0, "", "", .absent⟩⟩
        ⟨"delete_everything", Json.obj []⟩ =
      ⟨Content.text ("Unknown tool: " ++ "delete_everything"), true⟩ :=
  claim5 _ _ _ (by decide) (by decide) (by decide)

/-- C6: whenever the body of any handler raises — whatever the request and
whatever the message — the dispatcher catches it and replies with a failure
envelope whose text is `Error: ` followed by the message of the exception.
The dispatcher itself is a total function, so a handler error never
propagates out of it. -/
theorem claim6 (w : World) (req : CallRequest) (msg : String)
    (h : (handleTool w req).1 = Except.error msg) :
    dispatchTool w req = ⟨Content.text ("Error: " ++ msg), true⟩ := by
  unfold dispatchTool dispatchResult
  rcases hh : handleTool w req with ⟨res, n⟩
  rw [hh] at h
  simp only at h
  rw [h]

/-- C6, witness: a completion-service failure raised inside the
`generate_k6_script` handler surfaces as a failure envelope. -/
theorem claim6_witness :
    dispatchTool ⟨fun _ _ => .failure "boom", [], ⟨0, "", "", .absent⟩⟩
        ⟨"generate_k6_script", Json.obj []⟩ =
      ⟨Content.text ("Error: " ++ ("Ollama error: " ++ "boom")), true⟩ :=
  claim6 _ _ _ rfl

/-- C9: when the completion service replies with a non-success response,
the `generate_k6_script` call returns a failure envelope whose text embeds
the error body of the service, and the service was consulted exactly once —
the request is not retried. -/
theorem claim9 (w : World) (args : Json) (body : String)
    (hresp : ∀ sys user, w.ollama sys user = .failure body)
    (hargs : args ≠ Json.null) :
    dispatchTool w ⟨"generate_k6_script", args⟩ =
      ⟨Content.text ("Error: " ++ ("Ollama error: " ++ body)), true⟩ ∧
    ollamaCalls w ⟨"generate_k6_script", args⟩ = 1 := by
  have hb : genBranch w.ollama args =
      (Except.error ("Ollama error: " ++ body), 1) := by
    cases args with
    | null => exact absurd rfl hargs
    | bool b => simp only [genBranch, callOllama, hresp]
    | num q => simp only [genBranch, callOllama, hresp]
    | str s => simp only [genBranch, callOllama, hresp]
    | arr xs => simp only [genBranch, callOllama, hresp]
    | obj kvs => simp only [genBranch, callOllama, hresp]
  constructor
  · unfold dispatchTool dispatchResult handleTool
    rw [if_pos rfl]
    simp only
    rw [hb]
  · unfold ollamaCalls dispatchResult handleTool
    rw [if_pos rfl]
    simp only
    rw [hb]

/-- C9, witness: the service refuses with `model not found`. -/
theorem claim9_witness :
    dispatchTool ⟨fun _ _ => .failure "model not found", [],
        ⟨0, "", "", .absent⟩⟩
        ⟨"generate_k6_script", Json.obj [("prompt", Json.str "p"),
          ("techStack", Json.str "node")]⟩ =
      ⟨Content.text ("Error: " ++ ("Ollama error: " ++ "model not found")),
        true⟩ ∧
    ollamaCalls ⟨fun _ _ => .failure "model not found", [],
        ⟨0, "", "", .absent⟩⟩
        ⟨"generate_k6_script", Json.obj [("prompt", Json.str "p"),
          ("techStack", Json.str "node")]⟩ = 1 :=
  claim9 _ _ _ (fun _ _ => rfl) (by simp)

/-! ### Claims C7, C8: the test runner -/

/-- C7: whenever the spawned process terminates, `run_k6_test` succeeds and
its payload carries the exit code of the process, the full captured stderr,
the last 1000 characters of the captured stdout, and the parsed summary
mapping; when the summary file is absent or unparsable the payload carries
the empty mapping instead, and the operation still does not fail. -/
theorem claim7 (fs : List String) (outputDir scriptText : String)
    (proc : K6Proc) :
    ∃ fs2, runK6Test fs outputDir (Json.str scriptText) proc =
      Except.ok (fs2,
        { exitCode := proc.exitCode
          stdout := lastChars proc.stdout 1000
          stderr := proc.stderr
          summaryData := summaryOrEmpty proc.summary }) ∧
      ((proc.summary = SummaryFile.absent ∨
          proc.summary = SummaryFile.malformed) →
        summaryOrEmpty proc.summary = Json.obj []) := by
  refine ⟨ensuredDirs fs outputDir, ?_, ?_⟩
  · unfold runK6Test ensuredDirs
    by_cases hmem : outputDir ∈ fs
    · rw [if_pos hmem, if_pos hmem]
      rfl
    · rw [if_neg hmem, if_neg hmem]
      unfold mkdirSync
      rw [if_neg hmem]
      rfl
  · rintro (hs | hs) <;> rw [hs] <;> rfl

/-- C7, witness: a process that exits 99 without writing a summary file. -/
theorem claim7_witness :
    ∃ fs2, runK6Test [] "k6-results" (Json.str "script")
        ⟨99, "out", "err", .absent⟩ =
      Except.ok (fs2,
        { exitCode := (⟨99, "out", "err", .absent⟩ : K6Proc).exitCode
          stdout := lastChars (⟨99, "out", "err", .absent⟩ : K6Proc).stdout 1000
          stderr := (⟨99, "out", "err", .absent⟩ : K6Proc).stderr
          summaryData :=
            summaryOrEmpty (⟨99, "out", "err", .absent⟩ : K6Proc).summary }) ∧
      (((⟨99, "out", "err", .absent⟩ : K6Proc).summary = SummaryFile.absent ∨
          (⟨99, "out", "err", .absent⟩ : K6Proc).summary =
            SummaryFile.malformed) →
        summaryOrEmpty (⟨99, "out", "err", .absent⟩ : K6Proc).summary =
          Json.obj []) :=
  claim7 [] "k6-results" "script" ⟨99, "out", "err", .absent⟩

/-- C8: `run_k6_test` brings the output directory into existence before the
external process is invoked — the directory set passed to the spawn contains
it — and a second invocation with the directory already present succeeds
with the directory set unchanged: the guarded recursive creation is
idempotent and never errors. -/
theorem claim8 (fs : List String) (outputDir scriptText : String)
    (proc : K6Proc) :
    ∃ p, runK6Test fs outputDir (Json.str scriptText) proc =
        Except.ok (ensuredDirs fs outputDir, p) ∧
      outputDir ∈ ensuredDirs fs outputDir ∧
      runK6Test (ensuredDirs fs outputDir) outputDir (Json.str scriptText)
          proc =
        Except.ok (ensuredDirs fs outputDir, p) := by
  refine ⟨RunPayload.mk proc.exitCode (lastChars proc.stdout 1000) proc.stderr
    (summaryOrEmpty proc.summary), ?_, ?_, ?_⟩
  · unfold runK6Test ensuredDirs
    by_cases hmem : outputDir ∈ fs
    · rw [if_pos hmem, if_pos hmem]
      rfl
    · rw [if_neg hmem, if_neg hmem]
      unfold mkdirSync
      rw [if_neg hmem]
      rfl
  · unfold ensuredDirs
    by_cases hmem : outputDir ∈ fs
    · rw [if_pos hmem]
      exact hmem
    · rw [if_neg hmem]
      exact List.mem_cons_self _ _
  · have hmem2 : outputDir ∈ ensuredDirs fs outputDir := by
      unfold ensuredDirs
      by_cases hmem : outputDir ∈ fs
      · rw [if_pos hmem]; exact hmem
      · rw [if_neg hmem]; exact List.mem_cons_self _ _
    unfold runK6Test
    rw [if_pos hmem2]
    rfl

/-- C8, witness: a run against a filesystem that does not yet hold the
output directory, then a second run with it present. -/
theorem claim8_witness :
    ∃ p, runK6Test ["logs"] "k6-results" (Json.str "script")
          ⟨0, "", "", .absent⟩ =
        Except.ok (ensuredDirs ["logs"] "k6-results", p) ∧
      "k6-results" ∈ ensuredDirs ["logs"] "k6-results" ∧
      runK6Test (ensuredDirs ["logs"] "k6-results") "k6-results"
          (Json.str "script") ⟨0, "", "", .absent⟩ =
        Except.ok (ensuredDirs ["logs"] "k6-results", p) :=
  claim8 ["logs"] "k6-results" "script" ⟨0, "", "", .absent⟩

end K6MCP
